import Mathlib

/-!
Verification development for the earthquake-dashboard program
`streamlit_app.py` (event normalization and classification pipeline).

The embedding is shallow and follows the source:

* pandas nullable numeric columns (floats with NaN) are modelled as
  `Option ℚ`; a `none` plays the role of NaN and propagates the way the
  corresponding pandas operation treats NaN (documented at each definition);
* a datetime is modelled by the structure `DT`: the field `ts` is the
  absolute instant (epoch value) which determines chronological order,
  and `year`/`month`/`day` are its calendar fields, read only by the date
  formatter `fecha_es_sola`.  The calendar arithmetic relating `ts` to the
  three fields is not modelled, since no claim depends on it;
* a raw feed value that `pd.to_numeric(errors="coerce")` cannot parse is
  the constructor `FeedVal.nonnum`; a raw time value that is not a
  `datetime` instance is `TimeVal.notDt`;
* `DataFrame.sort_values` is modelled with `List.insertionSort`.  The
  source calls `sort_values` with the default `kind` (quicksort), whose
  order among equal keys is unspecified, so every theorem proved about a
  sort below is independent of the order of tied elements.
-/

namespace Terremoto

/-- Calendar fields plus the absolute instant of a UTC datetime.  `ts` is the
epoch value and is what comparisons and sorting read; `year`, `month` and
`day` are the fields read by the date formatter. -/
structure DT where
  year : Int
  month : Nat
  day : Nat
  ts : Int
deriving DecidableEq

/-- Raw event-time value as seen by the local helper `_to_utc` in
`generaTabla`: a timezone-naive datetime, a timezone-aware datetime (already
expressed here by the UTC instant that `astimezone(timezone.utc)` yields), or
a value that is not a datetime at all. -/
inductive TimeVal where
  | dtNaive (d : DT)
  | dtAware (d : DT)
  | notDt
deriving DecidableEq

/-- Raw feed field for the numeric columns: either a numeric value or a
value that `pd.to_numeric(..., errors="coerce")` cannot interpret. -/
inductive FeedVal where
  | num (q : ℚ)
  | nonnum
deriving DecidableEq

/-- One raw feed event: the index-aligned row built in `generaTabla` from
the feed's parallel arrays (times, longitudes, latitudes, places,
magnitudes, depths). -/
structure RawEvent where
  time : TimeVal
  lon : FeedVal
  lat : FeedVal
  place : String
  mag : FeedVal
  depth : FeedVal
deriving DecidableEq

/-- Embedding of `pd.to_numeric(col, errors="coerce")`: non-numeric values
become null (NaN). -/
def to_numeric : FeedVal → Option ℚ
  | .num q => some q
  | .nonnum => none

/-- Embedding of the local `_to_utc` in `generaTabla`: a naive datetime is
tagged as UTC (`replace(tzinfo=timezone.utc)`), an aware one is converted
(`astimezone(timezone.utc)`), anything else becomes `pd.NaT`. -/
def to_utc : TimeVal → Option DT
  | .dtNaive d => some d
  | .dtAware d => some d
  | .notDt => none

/-- Embedding of the `MESES_ES` dictionary together with the
`MESES_ES.get(m, m)` fallback used by the formatters: month number to
Spanish month name, or the number itself when outside 1..12. -/
def MESES_ES (m : Nat) : String :=
  if m = 1 then "Enero" else if m = 2 then "Febrero" else if m = 3 then "Marzo"
  else if m = 4 then "Abril" else if m = 5 then "Mayo" else if m = 6 then "Junio"
  else if m = 7 then "Julio" else if m = 8 then "Agosto" else if m = 9 then "Septiembre"
  else if m = 10 then "Octubre" else if m = 11 then "Noviembre" else if m = 12 then "Diciembre"
  else toString m

/-- Embedding of `fecha_es_sola`: empty string for a null time, otherwise
the localized date string built from day, month name and year. -/
def fecha_es_sola : Option DT → String
  | none => ""
  | some d => toString d.day ++ " de " ++ MESES_ES d.month ++ " de " ++ toString d.year

/-- Embedding of `clasificacion_richter`, line for line: a null or
non-numeric magnitude is handled by the initial guard, then the chain of
conditionals with its closed intervals and the final fallback. -/
def clasificacion_richter (mag : Option ℚ) : String :=
  match mag with
  | none => "desconocida"
  | some m =>
    if m < 2 then "micro"
    else if 2 ≤ m ∧ m ≤ 39/10 then "menor"
    else if 4 ≤ m ∧ m ≤ 49/10 then "ligero"
    else if 5 ≤ m ∧ m ≤ 59/10 then "moderado"
    else if 6 ≤ m ∧ m ≤ 69/10 then "fuerte"
    else if 7 ≤ m ∧ m ≤ 79/10 then "mayor"
    else if 8 ≤ m ∧ m ≤ 99/10 then "épico"
    else "legendario"

/-- PR_BBOX lat_min = 17.6. -/
def PR_lat_min : ℚ := 88/5

/-- PR_BBOX lat_max = 18.7. -/
def PR_lat_max : ℚ := 187/10

/-- PR_BBOX lon_min = -67.8. -/
def PR_lon_min : ℚ := -339/5

/-- PR_BBOX lon_max = -64.8. -/
def PR_lon_max : ℚ := -324/5

/-- One normalized record: the columns of the DataFrame that `generaTabla`
returns (`magnitud_color` is appended later, at the call site, and is
modelled separately by `magnitudColor`). -/
structure Record where
  time_utc : Option DT
  lon : Option ℚ
  lat : Option ℚ
  localizacion : String
  magnitud : Option ℚ
  profundidad : Option ℚ
  magnitud_size : ℚ
  fecha : String
  clasificacion : String
deriving DecidableEq

/-- Embedding of `Series.between(lo, hi, inclusive="both")` on one value:
inclusive comparisons on both ends, and a null (NaN) compares `False`. -/
def seriesBetween (x : Option ℚ) (lo hi : ℚ) : Bool :=
  match x with
  | none => false
  | some v => decide (lo ≤ v) && decide (v ≤ hi)

/-- Mask used by `filtrar_puerto_rico`: latitude between the two latitude
bounds and longitude between the two longitude bounds. -/
def inBox (r : Record) : Bool :=
  seriesBetween r.lat PR_lat_min PR_lat_max && seriesBetween r.lon PR_lon_min PR_lon_max

/-- Embedding of `filtrar_puerto_rico`: early return of an empty frame,
otherwise the rows where the bounding-box mask holds (the `reset_index`
only renumbers rows and has no counterpart on lists). -/
def filtrar_puerto_rico (df : List Record) : List Record :=
  if df.isEmpty then df else df.filter inBox

/-- Embedding of the zone dispatch at the call site: the regional filter is
applied only when the zone selector is "Puerto Rico". -/
def zonaFilter (zona : String) (df : List Record) : List Record :=
  if zona = "Puerto Rico" then filtrar_puerto_rico df else df

/-- Per-element effect of `clip(lower=0).fillna(0)` on the magnitude
column: a negative magnitude is raised to 0 and a null becomes 0. -/
def clipFill (m : Option ℚ) : ℚ :=
  match m with
  | some v => max v 0
  | none => 0

/-- Embedding of the `magnitud_size` construction in `generaTabla`:
clip-and-fill each magnitude, then, when every resulting entry is zero
(`(df["magnitud_size"] == 0).all()`), replace the whole column by 0.1. -/
def magnitud_size_col (mags : List (Option ℚ)) : List ℚ :=
  let s := mags.map clipFill
  if s.all (fun x => x == 0) then s.map (fun _ => 1/10) else s

/-- Sorting key of a record time: the instant, with null (NaT) kept apart. -/
def tkey (t : Option DT) : Option Int := t.map DT.ts

/-- Order on optional instants in which `none` is the minimum; used through
`timeDesc` so that null times end up after every non-null time in the
descending sort (`na_position="last"`). -/
def optIntLe : Option Int → Option Int → Bool
  | none, _ => true
  | some _, none => false
  | some x, some y => decide (x ≤ y)

/-- Sort relation of `sort_values("time_utc", ascending=False,
na_position="last")`: an earlier position is one whose time key is at least
the later one's, nulls last. -/
def timeDesc (a b : Record) : Prop := optIntLe (tkey b.time_utc) (tkey a.time_utc) = true

instance : DecidableRel timeDesc := fun a b => (Bool.decEq _ true : Decidable (timeDesc a b))

/-- One row of the normalized frame, given a raw event paired with its
entry of the already-computed `magnitud_size` column: the numeric
coercions, the UTC time, and the derived date and classification columns
of `generaTabla`. -/
def normalizaEvento (p : RawEvent × ℚ) : Record :=
  { time_utc := to_utc p.1.time
    lon := to_numeric p.1.lon
    lat := to_numeric p.1.lat
    localizacion := p.1.place
    magnitud := to_numeric p.1.mag
    profundidad := to_numeric p.1.depth
    magnitud_size := p.2
    fecha := fecha_es_sola (to_utc p.1.time)
    clasificacion := clasificacion_richter (to_numeric p.1.mag) }

/-- Embedding of `generaTabla` on a feed snapshot (the feed's equal-length
parallel arrays are taken already zipped into one `RawEvent` per event):
numeric coercion of the four numeric columns, the `magnitud_size` column,
time normalization, the derived date and classification columns, and the
final sort by `time_utc` descending with nulls last. -/
def generaTabla (feed : List RawEvent) : List Record :=
  List.insertionSort timeDesc
    ((feed.zip (magnitud_size_col (feed.map (fun e => to_numeric e.mag)))).map normalizaEvento)

/-- Reference-configuration test at the call site: `zona == "Puerto Rico"
and sev_label == "todos" and periodo_label == "mes"`. -/
def rango_fijo (zona sev_label periodo_label : String) : Bool :=
  decide (zona = "Puerto Rico") && decide (sev_label = "todos") && decide (periodo_label = "mes")

/-- Per-element effect of the `magnitud_color` assignment: the raw
magnitude, clamped by `clip(lower=1.8, upper=3.0)` exactly when the
reference configuration holds.  A null magnitude stays null under `clip`. -/
def magnitudColor (rf : Bool) (m : Option ℚ) : Option ℚ :=
  if rf then m.map (fun v => min (max v (9/5)) 3) else m

/-- The `magnitud_color` column over a whole record set. -/
def colorColumn (rf : Bool) (df : List Record) : List (Option ℚ) :=
  df.map (fun r => magnitudColor rf r.magnitud)

/-- Embedding of the `sev_map` dictionary (UI label to feed parameter);
`none` models the `KeyError` a missing key would raise. -/
def sev_map (s : String) : Option String :=
  if s = "todos" then some ("all")
  else if s = "significativo" then some ("significant")
  else if s = "4.5" then some ("4.5")
  else if s = "2.5" then some ("2.5")
  else if s = "1.0" then some ("1.0")
  else none

/-- Embedding of the `periodo_map` dictionary (UI label to feed parameter). -/
def periodo_map (s : String) : Option String :=
  if s = "mes" then some ("month")
  else if s = "semana" then some ("week")
  else if s = "día" then some ("day")
  else none

/-- Embedding of `Series.mean()`: the mean of the non-null entries, and
null (NaN) when there is no non-null entry. -/
def mean_notnull (xs : List (Option ℚ)) : Option ℚ :=
  let vals := xs.filterMap id
  if vals.length = 0 then none else some (vals.sum / vals.length)

/-- Displayed form of one summary average.  `na` is the literal "N/A"
branch taken when the event count is zero; `valor q` is the mean rendered
to two decimals; `nanText` is the case count > 0 with every entry null,
where the float NaN itself gets formatted. -/
inductive AvgDisplay where
  | na
  | valor (q : ℚ)
  | nanText
deriving DecidableEq

/-- Embedding of the `prom_mag` / `prom_mag_str` computation (and its
depth twin): "N/A" exactly when the count is zero, otherwise the column
mean. -/
def avgDisplay (cantidad : Nat) (xs : List (Option ℚ)) : AvgDisplay :=
  if 0 < cantidad then
    match mean_notnull xs with
    | some q => .valor q
    | none => .nanText
  else .na

/-- One displayed row of the optional table: the four selected columns
`fecha`, `localización`, `magnitud`, `clasificación`. -/
structure TableRow where
  fecha : String
  localizacion : String
  magnitud : Option ℚ
  clasificacion : String
deriving DecidableEq

/-- Column selection `df[["fecha", "localización", "magnitud",
"clasificación"]]` on one record. -/
def recordToRow (r : Record) : TableRow :=
  { fecha := r.fecha
    localizacion := r.localizacion
    magnitud := r.magnitud
    clasificacion := r.clasificacion }

/-- Order on optional magnitudes in which `none` is the minimum; used
through `magDesc` so null magnitudes end up last in the descending sort. -/
def optRatLe : Option ℚ → Option ℚ → Bool
  | none, _ => true
  | some _, none => false
  | some x, some y => decide (x ≤ y)

/-- Sort relation of `sort_values("magnitud", ascending=False,
na_position="last")` on table rows. -/
def magDesc (a b : TableRow) : Prop := optRatLe b.magnitud a.magnitud = true

instance : DecidableRel magDesc := fun a b => (Bool.decEq _ true : Decidable (magDesc a b))

/-- Embedding of the `df_tabla` construction: select the four columns, sort
by magnitude descending with nulls last, keep the first `n` rows, and
attach the 1-based display index `range(1, len+1)`. -/
def df_tabla (df : List Record) (n : Nat) : List (Nat × TableRow) :=
  let rows := df.map recordToRow
  let top := (List.insertionSort magDesc rows).take n
  (List.range' 1 top.length).zip top

/-- Data handed to each histogram: the column with `clip(lower=0)` applied
(a null stays null and is dropped by the chart itself). -/
def histCol (xs : List (Option ℚ)) : List (Option ℚ) :=
  xs.map (Option.map (fun v => max v 0))

/-- Everything rendered below the `df.empty` guard; skipped entirely by
`st.stop()` when the filtered set is empty. -/
structure PostVista where
  tabla : Option (List (Nat × TableRow))
  hist_mag : List (Option ℚ)
  hist_prof : List (Option ℚ)
  mapa : Bool
deriving DecidableEq

/-- The rendering pass over the filtered record set: the summary block,
the empty-set notice, and (when the set is non-empty) the downstream
artifacts. -/
structure Vista where
  cantidad : Nat
  prom_mag : AvgDisplay
  prom_prof : AvgDisplay
  aviso_sin_eventos : Bool
  post : Option PostVista
deriving DecidableEq

/-- Embedding of the main-panel flow from the metrics block to the end of
the script: count and averages are always computed; when the frame is
empty a warning is shown and `st.stop()` prevents every later artifact;
otherwise the optional table, the two histograms and the optional map are
produced.  Every branch returns a value: an empty set is not an error. -/
def renderPass (df : List Record) (mostrar_tabla mostrar_mapa : Bool)
    (n_eventos_tabla : Nat) : Vista :=
  let cantidad := df.length
  let pm := avgDisplay cantidad (df.map Record.magnitud)
  let pp := avgDisplay cantidad (df.map Record.profundidad)
  if df.isEmpty then
    { cantidad := cantidad, prom_mag := pm, prom_prof := pp,
      aviso_sin_eventos := true, post := none }
  else
    { cantidad := cantidad, prom_mag := pm, prom_prof := pp,
      aviso_sin_eventos := false,
      post := some
        { tabla := if mostrar_tabla then some (df_tabla df n_eventos_tabla) else none
          hist_mag := histCol (df.map Record.magnitud)
          hist_prof := histCol (df.map Record.profundidad)
          mapa := mostrar_mapa } }

instance : IsTotal TableRow magDesc where
  total a b := by
    unfold magDesc
    cases b.magnitud <;> cases a.magnitud <;> simp [optRatLe]
    exact le_total _ _

instance : IsTrans TableRow magDesc where
  trans a b c hab hbc := by
    unfold magDesc at hab hbc ⊢
    cases ha : a.magnitud <;> cases hb : b.magnitud <;> cases hc : c.magnitud <;>
      rw [ha, hb] at hab <;> rw [hb, hc] at hbc <;> simp [optRatLe] at hab hbc ⊢
    exact le_trans hbc hab

/-- Record with null coordinates, used as a concrete input by witnesses. -/
def recSinCoords : Record :=
  { time_utc := none, lon := none, lat := none, localizacion := "sin coordenadas",
    magnitud := some 5, profundidad := none, magnitud_size := 5,
    fecha := "", clasificacion := "moderado" }

/-- Record with a null magnitude, used as a concrete input by the C3
counterexample. -/
def recMagNula : Record :=
  { time_utc := none, lon := some (-66), lat := some 18, localizacion := "magnitud nula",
    magnitud := none, profundidad := none, magnitud_size := 1/10,
    fecha := "", clasificacion := "desconocida" }

/-- Concrete three-event feed of scenario A: magnitudes 1.5, 4.0 and a
non-numeric value, with one naive time, one aware time and one non-datetime
time. -/
def feedC : List RawEvent :=
  [ { time := TimeVal.dtNaive { year := 2025, month := 3, day := 14, ts := 300 },
      lon := FeedVal.num (-66), lat := FeedVal.num 18, place := "PR a",
      mag := FeedVal.num (3/2), depth := FeedVal.num 10 },
    { time := TimeVal.dtAware { year := 2025, month := 3, day := 13, ts := 200 },
      lon := FeedVal.num (-67), lat := FeedVal.num (181/10), place := "PR b",
      mag := FeedVal.num 4, depth := FeedVal.num 12 },
    { time := TimeVal.notDt,
      lon := FeedVal.num (-65), lat := FeedVal.num 18, place := "PR c",
      mag := FeedVal.nonnum, depth := FeedVal.num 8 } ]

/-- Twelve-record set used as the concrete input of the scenario-D witness
(table toggle on, row count 5, twelve matching events). -/
def dfD : List Record := List.replicate 12 recSinCoords

/-- Helper: the early-return branch of `filtrar_puerto_rico` coincides with
plain filtering, so the function is filtering by the box mask. -/
theorem filtrar_eq_filter (df : List Record) : filtrar_puerto_rico df = df.filter inBox := by
  cases df with
  | nil => rfl
  | cons a l => rfl

/-- Helper: membership in the filtered set. -/
theorem mem_filtrar {df : List Record} {r : Record} :
    r ∈ filtrar_puerto_rico df ↔ r ∈ df ∧ inBox r = true := by
  rw [filtrar_eq_filter]
  exact List.mem_filter

/-- Helper: the size column has the same length as the magnitude column. -/
theorem magnitud_size_col_length (mags : List (Option ℚ)) :
    (magnitud_size_col mags).length = mags.length := by
  unfold magnitud_size_col
  by_cases h : (mags.map clipFill).all (fun x => x == 0) = true
  · simp [h]
  · simp [h]

/-- C1: at every boundary stated by the spec the classification matches the
table (3.9 is "menor", 4.0 is "ligero", 9.9 is "épico", 10.0 is
"legendario", null is "desconocida"), but the tier intervals are not
continuous: the magnitude 3.95, which lies strictly between the "menor"
and "ligero" tiers, falls through every closed interval of the conditional
chain and is returned as "legendario". -/
theorem C1_clasificacion_bordes_y_hueco :
    clasificacion_richter (some (39/10)) = "menor" ∧
    clasificacion_richter (some 4) = "ligero" ∧
    clasificacion_richter (some (99/10)) = "épico" ∧
    clasificacion_richter (some 10) = "legendario" ∧
    clasificacion_richter none = "desconocida" ∧
    clasificacion_richter (some (79/20)) = "legendario" := by
  refine ⟨?_, ?_, ?_, ?_, ?_, ?_⟩ <;> norm_num [clasificacion_richter]

/-- C3 counterexample: under the reference configuration a record whose
magnitude is null gets a null `magnitud_color`, which does not lie in the
interval [1.8, 3.0]; so not every `magnitud_color` value of a record set
lies in that interval. -/
theorem C3_color_nulo_contraejemplo :
    colorColumn (rango_fijo ("Puerto Rico") ("todos") ("mes")) [recMagNula]
        = [none] ∧
    ¬ ∀ c ∈ colorColumn (rango_fijo ("Puerto Rico") ("todos") ("mes"))
        [recMagNula],
      ∃ q : ℚ, c = some q ∧ 9/5 ≤ q ∧ q ≤ 3 := by
  constructor
  · simp [colorColumn, magnitudColor, recMagNula]
  · intro hall
    rcases hall none (by simp [colorColumn, magnitudColor, recMagNula]) with ⟨q, hq, -, -⟩
    cases hq

/-- C3 (amended): under the reference configuration every non-null
`magnitud_color` lies in [1.8, 3.0] even when the raw magnitude is outside
that range, and `magnitud_color` is null exactly on the records whose
magnitude is null; under every other selector combination
`magnitud_color` equals the raw magnitude.  The reference test is the
selector triple ("Puerto Rico", "todos", "mes"), whose feed parameters are
"all" and "month". -/
theorem C3_color_rango (z s p : String) (m : Option ℚ) :
    (rango_fijo z s p = true ↔ z = "Puerto Rico" ∧ s = "todos" ∧ p = "mes") ∧
    (∀ q : ℚ, magnitudColor true (some q) = some (min (max q (9/5)) 3)) ∧
    (∀ q c : ℚ, magnitudColor true (some q) = some c → 9/5 ≤ c ∧ c ≤ 3) ∧
    magnitudColor true none = none ∧
    magnitudColor false m = m ∧
    sev_map ("todos") = some ("all") ∧
    periodo_map ("mes") = some ("month") := by
  refine ⟨?_, fun q => rfl, ?_, by simp [magnitudColor], rfl, rfl, rfl⟩
  · simp [rango_fijo, Bool.and_eq_true, decide_eq_true_eq, and_assoc]
  · intro q c hc
    have hce : c = min (max q (9/5)) 3 := by
      have : some (min (max q (9/5)) 3) = some c := hc
      exact (Option.some.inj this).symm
    subst hce
    exact ⟨le_min (le_max_right q (9/5)) (by norm_num), min_le_right _ _⟩

/-- Witness for C3_color_rango: at the raw magnitude 5 (outside the range)
the clamped color is within [1.8, 3.0]. -/
theorem C3_color_rango_witness :
    (9:ℚ)/5 ≤ min (max (5:ℚ) (9/5)) 3 ∧ min (max (5:ℚ) (9/5)) 3 ≤ 3 :=
  (C3_color_rango ("Puerto Rico") ("todos") ("mes") none).2.2.1 5 (min (max 5 (9/5)) 3) rfl

/-- C4: the `magnitud_size` column has one entry per magnitude, no entry
is negative (and none is null, the entries being plain rationals), each
clip-and-fill entry equals max(magnitude, 0) with null substituted by 0,
every entry becomes the visibility constant 0.1 when all source magnitudes
are ≤ 0 or null, and otherwise the column is exactly the clip-and-fill of
the source column. -/
theorem C4_magnitud_size (mags : List (Option ℚ)) :
    (magnitud_size_col mags).length = mags.length ∧
    (∀ x ∈ magnitud_size_col mags, 0 ≤ x) ∧
    (∀ m : Option ℚ, clipFill m = max (m.getD 0) 0) ∧
    ((∀ m ∈ mags, ∀ v : ℚ, m = some v → v ≤ 0) → ∀ x ∈ magnitud_size_col mags, x = 1/10) ∧
    ((∃ m ∈ mags, ∃ v : ℚ, m = some v ∧ 0 < v) → magnitud_size_col mags = mags.map clipFill) := by
  have hclip : ∀ m : Option ℚ, clipFill m = max (m.getD 0) 0 := by
    intro m
    cases m
    · simp [clipFill]
    · simp [clipFill]
  have hnon : ∀ m : Option ℚ, 0 ≤ clipFill m := by
    intro m
    cases m
    · simp [clipFill]
    · exact le_max_right _ _
  refine ⟨magnitud_size_col_length mags, ?_, hclip, ?_, ?_⟩
  · intro x hx
    unfold magnitud_size_col at hx
    by_cases h : (mags.map clipFill).all (fun x => x == 0) = true
    · rw [if_pos h] at hx
      rcases List.mem_map.mp hx with ⟨m, -, hm⟩
      rw [← hm]
      norm_num
    · rw [if_neg h] at hx
      rcases List.mem_map.mp hx with ⟨m, -, hm⟩
      rw [← hm]
      exact hnon m
  · intro hneg x hx
    have hall : (mags.map clipFill).all (fun x => x == 0) = true := by
      rw [List.all_eq_true]
      intro x hx
      rcases List.mem_map.mp hx with ⟨m, hm, hval⟩
      rw [beq_iff_eq, ← hval]
      cases m with
      | none => simp [clipFill]
      | some v => simpa [clipFill] using max_eq_right (hneg _ hm v rfl)
    unfold magnitud_size_col at hx
    rw [if_pos hall] at hx
    rcases List.mem_map.mp hx with ⟨m, -, hm⟩
    exact hm.symm
  · rintro ⟨m, hm, v, rfl, hv⟩
    have hne : (mags.map clipFill).all (fun x => x == 0) = false := by
      rw [Bool.eq_false_iff]
      intro hall
      have := List.all_eq_true.mp hall (clipFill (some v))
        (List.mem_map.mpr ⟨some v, hm, rfl⟩)
      rw [beq_iff_eq] at this
      have hpos : 0 < clipFill (some v) := lt_of_lt_of_le hv (le_max_left _ _)
      rw [this] at hpos
      exact lt_irrefl 0 hpos
    unfold magnitud_size_col
    rw [if_neg (by rw [hne]; exact fun h => Bool.noConfusion h)]

/-- Witness for C4_magnitud_size: an all-nonpositive-or-null column becomes
the constant 0.1, and a column holding a positive magnitude is the plain
clip-and-fill. -/
theorem C4_magnitud_size_witness :
    (∀ x ∈ magnitud_size_col [some (-2), none], x = 1/10) ∧
    magnitud_size_col [some 3] = [some 3].map clipFill := by
  constructor
  · refine (C4_magnitud_size [some (-2), none]).2.2.2.1 ?_
    intro m hm v hv
    rcases List.mem_cons.mp hm with h | h
    · rw [h] at hv
      have hv2 : v = -2 := (Option.some.inj hv).symm
      rw [hv2]
      norm_num
    · rcases List.mem_cons.mp h with h2 | h2
      · rw [h2] at hv
        exact Option.noConfusion hv
      · exact absurd h2 (List.not_mem_nil m)
  · exact (C4_magnitud_size [some 3]).2.2.2.2 ⟨some 3, by simp, 3, rfl, by norm_num⟩

/-- C5: the regional bounding-box filter is idempotent, keeps exactly the
records whose latitude and longitude lie inside the fixed box with
inclusive comparisons on all four bounds, the zone dispatch returns the
set unchanged for the unrestricted zone, and a set with no match filters
to the empty list rather than an error. -/
theorem C5_filtro_geografico (df : List Record) :
    filtrar_puerto_rico (filtrar_puerto_rico df) = filtrar_puerto_rico df ∧
    (∀ r : Record, r ∈ filtrar_puerto_rico df ↔ r ∈ df ∧ inBox r = true) ∧
    zonaFilter ("Mundo") df = df ∧
    ((∀ r ∈ df, inBox r = false) → filtrar_puerto_rico df = []) := by
  refine ⟨?_, ?_, ?_, ?_⟩
  · rw [filtrar_eq_filter df, filtrar_eq_filter, List.filter_filter]
    simp [Bool.and_self]
  · intro r
    exact mem_filtrar
  · rw [zonaFilter, if_neg (by decide)]
  · intro h
    rw [filtrar_eq_filter, List.filter_eq_nil_iff]
    intro a ha
    simp [h a ha]

/-- Witness for C5_filtro_geografico: a one-record set whose record has
null coordinates filters to the empty list. -/
theorem C5_filtro_geografico_witness :
    filtrar_puerto_rico [recSinCoords] = [] := by
  refine (C5_filtro_geografico [recSinCoords]).2.2.2 ?_
  intro r hr
  rcases List.mem_cons.mp hr with h | h
  · rw [h]
    rfl
  · exact absurd h (List.not_mem_nil r)

/-- C6: scenario A end to end.  On a feed of three events with magnitudes
1.5, 4.0 and non-numeric, the normalized set has three records (the
null-magnitude event is still counted), the classifications are "micro",
"ligero" and "desconocida", and the displayed mean magnitude is 2.75, the
null being excluded from the average. -/
theorem C6_escenario_A :
    (generaTabla feedC).length = 3 ∧
    (generaTabla feedC).map Record.clasificacion = [("micro"), ("ligero"), ("desconocida")] ∧
    avgDisplay (generaTabla feedC).length ((generaTabla feedC).map Record.magnitud)
      = AvgDisplay.valor (11/4) := by
  refine ⟨?_, ?_, ?_⟩ <;>
    norm_num [generaTabla, normalizaEvento, feedC, magnitud_size_col, clipFill, to_numeric,
      to_utc, clasificacion_richter, timeDesc, tkey, optIntLe, List.zip_cons_cons,
      avgDisplay, mean_notnull, List.filterMap_cons, max_def]

/-- C7: with the table toggle on and a chosen row count n within the fixed
5..20 bound, the displayed table has min(n, count) rows — exactly n rows
when at least n events are present —, carries the 1-based display index
1..length, is sorted by magnitude descending with null magnitudes last,
and every displayed row is the four-column projection (date, place,
magnitude, classification) of a record of the filtered set. -/
theorem C7_tabla_topN (df : List Record) (n : Nat) (_h5 : 5 ≤ n) (_h20 : n ≤ 20) :
    (df_tabla df n).length = min n df.length ∧
    (n ≤ df.length → (df_tabla df n).length = n) ∧
    (df_tabla df n).map Prod.fst = List.range' 1 ((df_tabla df n).length) ∧
    List.Sorted magDesc ((df_tabla df n).map Prod.snd) ∧
    (∀ row ∈ (df_tabla df n).map Prod.snd, row ∈ df.map recordToRow) := by
  have hdef : df_tabla df n
      = (List.range' 1 ((List.insertionSort magDesc (df.map recordToRow)).take n).length).zip
          ((List.insertionSort magDesc (df.map recordToRow)).take n) := rfl
  have htoplen : ((List.insertionSort magDesc (df.map recordToRow)).take n).length
      = min n df.length := by
    rw [List.length_take, List.length_insertionSort, List.length_map]
  have hzlen : (df_tabla df n).length
      = ((List.insertionSort magDesc (df.map recordToRow)).take n).length := by
    rw [hdef, List.length_zip, List.length_range']
    exact min_self _
  have hsnd : (df_tabla df n).map Prod.snd
      = (List.insertionSort magDesc (df.map recordToRow)).take n := by
    rw [hdef]
    exact List.map_snd_zip _ _ (le_of_eq (List.length_range' _ _ _).symm)
  refine ⟨hzlen.trans htoplen, ?_, ?_, ?_, ?_⟩
  · intro hn
    rw [hzlen, htoplen]
    exact min_eq_left hn
  · rw [hzlen, hdef]
    exact List.map_fst_zip _ _ (le_of_eq (List.length_range' _ _ _))
  · rw [hsnd]
    exact List.Pairwise.sublist (List.take_sublist _ _) (List.sorted_insertionSort magDesc _)
  · intro row hrow
    rw [hsnd] at hrow
    exact (List.perm_insertionSort magDesc _).subset ((List.take_sublist _ _).subset hrow)

/-- Witness for C7_tabla_topN: scenario D, twelve matching events and row
count 5 give a table of exactly five rows. -/
theorem C7_tabla_topN_witness : (df_tabla dfD 5).length = 5 :=
  (C7_tabla_topN dfD 5 (by norm_num) (by norm_num)).2.1
    (by rw [dfD, List.length_replicate]; norm_num)

/-- C8: when the filtered record set is empty the rendering pass reports
count 0, shows both averages as "N/A", raises the no-events-found notice,
and produces none of the downstream artifacts (table, histograms, map);
the pass still returns a value, so an empty set is not an error. -/
theorem C8_conjunto_vacio (df : List Record) (mt mm : Bool) (n : Nat)
    (h : df.length = 0) :
    renderPass df mt mm n =
      { cantidad := 0, prom_mag := AvgDisplay.na, prom_prof := AvgDisplay.na,
        aviso_sin_eventos := true, post := none } := by
  have hnil : df = [] := List.length_eq_zero.mp h
  subst hnil
  simp [renderPass, avgDisplay]

/-- Witness for C8_conjunto_vacio at the empty record set. -/
theorem C8_conjunto_vacio_witness :
    renderPass [] false false 5 =
      { cantidad := 0, prom_mag := AvgDisplay.na, prom_prof := AvgDisplay.na,
        aviso_sin_eventos := true, post := none } :=
  C8_conjunto_vacio [] false false 5 rfl

/-- C9: normalization preserves cardinality — the normalized set has
exactly one record per raw feed event, and the multiset of place names is
exactly the feed's, so the column-only pipeline (coercions, derived
columns, sort) neither adds nor drops rows. -/
theorem C9_cardinalidad (feed : List RawEvent) :
    (generaTabla feed).length = feed.length ∧
    ((generaTabla feed).map Record.localizacion).Perm (feed.map RawEvent.place) := by
  have hsz : (magnitud_size_col (feed.map (fun e => to_numeric e.mag))).length
      = feed.length := by
    rw [magnitud_size_col_length, List.length_map]
  have hzip : (feed.zip (magnitud_size_col (feed.map (fun e => to_numeric e.mag)))).length
      = feed.length := by
    rw [List.length_zip, hsz, min_self]
  constructor
  · rw [generaTabla, List.length_insertionSort, List.length_map, hzip]
  · have hmap : ((feed.zip (magnitud_size_col (feed.map (fun e => to_numeric e.mag)))).map
        normalizaEvento).map Record.localizacion = feed.map RawEvent.place := by
      rw [List.map_map]
      have hcomp : Record.localizacion ∘ normalizaEvento
          = (RawEvent.place ∘ Prod.fst : RawEvent × ℚ → String) := rfl
      rw [hcomp, ← List.map_map, List.map_fst_zip _ _ (le_of_eq hsz.symm)]
    rw [generaTabla]
    exact hmap ▸ (List.perm_insertionSort timeDesc _).map Record.localizacion

/-- C10: a record whose latitude or longitude is null (as a non-numeric
coordinate becomes after coercion) is never kept by the regional
bounding-box filter, while the unrestricted zone returns the whole set
unchanged, null coordinates included. -/
theorem C10_coordenadas_nulas (df : List Record) (r : Record)
    (h : r.lat = none ∨ r.lon = none) :
    r ∉ filtrar_puerto_rico df ∧
    zonaFilter ("Mundo") df = df ∧
    to_numeric FeedVal.nonnum = none := by
  refine ⟨?_, by rw [zonaFilter, if_neg (by decide)], rfl⟩
  intro hmem
  have hin := (mem_filtrar.mp hmem).2
  rcases h with h | h <;> simp [inBox, seriesBetween, h] at hin

/-- Witness for C10_coordenadas_nulas: the null-coordinate record is absent
from the regional view of a one-record set and present unchanged in the
unrestricted view. -/
theorem C10_coordenadas_nulas_witness :
    recSinCoords ∉ filtrar_puerto_rico [recSinCoords] ∧
    zonaFilter ("Mundo") [recSinCoords] = [recSinCoords] ∧
    to_numeric FeedVal.nonnum = none :=
  C10_coordenadas_nulas [recSinCoords] recSinCoords (Or.inl rfl)

end Terremoto
